import Mathlib

/-!
Verification of the equity-calculator-app projection engine.

This file shallowly embeds the pure calculation pipeline of the repository
(`src/src/utils/taxCalculations.ts`, `src/src/utils/investmentCalculations.ts`,
the pension / financial projection modules, and the orchestration in
`src/src/context/FinancialContext.tsx`) into Lean, using exact rational
arithmetic (`ℚ`) in place of JavaScript doubles.  JavaScript `Map`s indexed by
year are embedded as total functions `ℤ → ℚ` (lookup-with-`|| 0` default),
`bracket.upperBound ?? Infinity` as an `Option ℚ` whose `none` case makes
`Math.min` return its other argument, and optional array parameters as
`Option (List _)` with truthiness of `arr[i]` embedded as an index-in-bounds
test.  Loop counters `i` are natural numbers; calendar years are integers.
-/

namespace EquityCalc

/-- Income tax bracket (`src/src/types/financial.ts`): `upperBound` is `null`
(`none`) for the open-ended top bracket. -/
structure TaxBracket where
  lowerBound : ℚ
  upperBound : Option ℚ
  rate : ℚ
deriving DecidableEq

/-- Social contribution rule (`src/src/types/financial.ts`). -/
structure SocialContribution where
  name : String
  rate : ℚ
  maxIncome : ℚ
deriving DecidableEq

/-- Tax configuration (`src/src/types/financial.ts`). -/
structure TaxConfig where
  year : ℤ
  incomeTaxBrackets : List TaxBracket
  socialContributions : List SocialContribution
deriving DecidableEq

/-- The fixed Dutch 2025 configuration (`src/src/utils/taxCalculations.ts`). -/
def NETHERLANDS_TAX_CONFIG_2025 : TaxConfig :=
  { year := 2025
    incomeTaxBrackets :=
      [ { lowerBound := 0, upperBound := some 35472, rate := 0.0942 }
      , { lowerBound := 35472, upperBound := some 69399, rate := 0.3707 }
      , { lowerBound := 69399, upperBound := none, rate := 0.495 } ]
    socialContributions :=
      [ { name := "Social Security", rate := 0.2765, maxIncome := 35472 } ] }

def GENERAL_TAX_CREDIT_2025 : ℚ := 2888
def LABOUR_TAX_CREDIT_MAX_2025 : ℚ := 4260
def LABOUR_TAX_CREDIT_THRESHOLD_LOW : ℚ := 10351
def LABOUR_TAX_CREDIT_THRESHOLD_MID : ℚ := 22357
def LABOUR_TAX_CREDIT_THRESHOLD_HIGH : ℚ := 36650
def LABOUR_TAX_CREDIT_PHASEOUT_END : ℚ := 109347

/-- `calculateLabourTaxCredit` (`src/src/utils/taxCalculations.ts`, lines 51-72). -/
def calculateLabourTaxCredit (grossIncome : ℚ) : ℚ :=
  if grossIncome ≤ LABOUR_TAX_CREDIT_THRESHOLD_LOW then
    grossIncome * 0.04541
  else if grossIncome ≤ LABOUR_TAX_CREDIT_THRESHOLD_MID then
    470 + (grossIncome - LABOUR_TAX_CREDIT_THRESHOLD_LOW) * 0.28461
  else if grossIncome ≤ LABOUR_TAX_CREDIT_THRESHOLD_HIGH then
    3887 + (grossIncome - LABOUR_TAX_CREDIT_THRESHOLD_MID) * 0.02610
  else if grossIncome ≤ LABOUR_TAX_CREDIT_PHASEOUT_END then
    max 0 (LABOUR_TAX_CREDIT_MAX_2025
      - (grossIncome - LABOUR_TAX_CREDIT_THRESHOLD_HIGH) * 0.05860)
  else 0

/-- `calculateGeneralTaxCredit` (`src/src/utils/taxCalculations.ts`, lines 81-94). -/
def calculateGeneralTaxCredit (taxableIncome : ℚ) : ℚ :=
  if taxableIncome ≤ 21318 then
    GENERAL_TAX_CREDIT_2025
  else if taxableIncome ≤ 69399 then
    max 0 (GENERAL_TAX_CREDIT_2025 - (taxableIncome - 21318) * 0.06007)
  else 0

/-- `bracket.upperBound ?? Infinity` followed by `Math.min(taxableIncome, upperBound)`:
with `null` upper bound the minimum is `taxableIncome` itself. -/
def bracketCap (taxableIncome : ℚ) : Option ℚ → ℚ
  | some u => min taxableIncome u
  | none => taxableIncome

/-- `calculateIncomeTax` (`src/src/utils/taxCalculations.ts`, lines 99-113):
sum over brackets of `(min(taxable, upper) - lower) * rate` whenever
`taxable > lower`. -/
def calculateIncomeTax (taxableIncome : ℚ) : List TaxBracket → ℚ
  | [] => 0
  | b :: rest =>
      (if b.lowerBound < taxableIncome then
        (bracketCap taxableIncome b.upperBound - b.lowerBound) * b.rate
      else 0) + calculateIncomeTax taxableIncome rest

/-- `calculateSocialContributions` (`src/src/utils/taxCalculations.ts`, lines 118-130). -/
def calculateSocialContributions (taxableIncome : ℚ) : List SocialContribution → ℚ
  | [] => 0
  | c :: rest =>
      min taxableIncome c.maxIncome * c.rate
        + calculateSocialContributions taxableIncome rest

/-- The loop test `taxableIncome >= lowerBound && taxableIncome < upperBound`
of `calculateMarginalTaxRate`, with `upperBound ?? Infinity`. -/
def bracketContains (taxableIncome : ℚ) (b : TaxBracket) : Bool :=
  decide (b.lowerBound ≤ taxableIncome) &&
    (match b.upperBound with
     | some u => decide (taxableIncome < u)
     | none => true)

/-- The bracket-scanning loop of `calculateMarginalTaxRate`: the first bracket
containing `taxableIncome` sets the rate and breaks; a bracket with a `null`
upper bound that does not contain it overwrites the accumulator and the loop
continues. -/
def marginalBracketRate (taxableIncome : ℚ) : List TaxBracket → ℚ → ℚ
  | [], acc => acc
  | b :: rest, acc =>
      if bracketContains taxableIncome b then
        b.rate
      else
        marginalBracketRate taxableIncome rest
          (match b.upperBound with
           | none => b.rate
           | some _ => acc)

/-- The social-contribution part of `calculateMarginalTaxRate`: add the rates
whose ceiling has not yet been reached. -/
def marginalSocialRate (taxableIncome : ℚ) : List SocialContribution → ℚ
  | [] => 0
  | c :: rest =>
      (if taxableIncome < c.maxIncome then c.rate else 0)
        + marginalSocialRate taxableIncome rest

/-- `calculateMarginalTaxRate` (`src/src/utils/taxCalculations.ts`, lines 135-162). -/
def calculateMarginalTaxRate (taxableIncome : ℚ) (brackets : List TaxBracket)
    (socialContributions : List SocialContribution) : ℚ :=
  marginalBracketRate taxableIncome brackets 0
    + marginalSocialRate taxableIncome socialContributions

/-- `TaxResult` (`src/src/types/financial.ts`). -/
structure TaxResult where
  year : ℤ
  grossIncome : ℚ
  taxableIncome : ℚ
  incomeTax : ℚ
  socialContributions : ℚ
  pensionContributions : ℚ
  generalTaxCredit : ℚ
  labourTaxCredit : ℚ
  totalTaxBeforeCredits : ℚ
  totalTax : ℚ
  netIncome : ℚ
  effectiveTaxRate : ℚ
  marginalTaxRate : ℚ
deriving DecidableEq

/-- All-zero `TaxResult`, used as the `getD` fallback when embedding
JavaScript `arr[i]` accesses that are only taken under an in-bounds test. -/
def defaultTaxResult : TaxResult :=
  { year := 0, grossIncome := 0, taxableIncome := 0, incomeTax := 0
    socialContributions := 0, pensionContributions := 0, generalTaxCredit := 0
    labourTaxCredit := 0, totalTaxBeforeCredits := 0, totalTax := 0
    netIncome := 0, effectiveTaxRate := 0, marginalTaxRate := 0 }

/-- `calculateTax` (`src/src/utils/taxCalculations.ts`, lines 173-243).
`effectiveTaxRate` is `totalTax / grossIncome` with `ℚ`-division (0 at 0 where
JavaScript would produce NaN). -/
def calculateTax (grossIncome pensionPercentage : ℚ) (has30PercentRuling : Bool)
    (year : ℤ) (taxConfig : TaxConfig)
    (pensionContributionsOverride : Option ℚ) : TaxResult :=
  let pensionContributions :=
    match pensionContributionsOverride with
    | some p => p
    | none => grossIncome * pensionPercentage
  let incomeAfterPension := grossIncome - pensionContributions
  let taxableIncome :=
    if has30PercentRuling then incomeAfterPension * 0.70 else incomeAfterPension
  let incomeTax := calculateIncomeTax taxableIncome taxConfig.incomeTaxBrackets
  let socialContributions :=
    calculateSocialContributions taxableIncome taxConfig.socialContributions
  let generalTaxCredit := calculateGeneralTaxCredit taxableIncome
  let labourTaxCredit := calculateLabourTaxCredit grossIncome
  let totalTaxBeforeCredits := incomeTax + socialContributions + pensionContributions
  let taxAfterCredits :=
    max pensionContributions
      (incomeTax + socialContributions - generalTaxCredit - labourTaxCredit)
  let totalTax := taxAfterCredits + pensionContributions
  let netIncome := grossIncome - totalTax
  let effectiveTaxRate := totalTax / grossIncome
  let marginalTaxRate :=
    calculateMarginalTaxRate taxableIncome taxConfig.incomeTaxBrackets
      taxConfig.socialContributions
  { year, grossIncome, taxableIncome, incomeTax, socialContributions
    pensionContributions, generalTaxCredit, labourTaxCredit
    totalTaxBeforeCredits, totalTax, netIncome, effectiveTaxRate, marginalTaxRate }

/-- Return value of `calculateRSUTax` (`src/src/utils/taxCalculations.ts`,
lines 249-273). -/
structure RSUTaxInfo where
  marginalTaxRate : ℚ
  taxOnRSU : ℚ
  netRSUValue : ℚ
deriving DecidableEq

/-- `calculateRSUTax` (`src/src/utils/taxCalculations.ts`, lines 249-273):
fallback RSU taxation at the marginal rate of the combined income. -/
def calculateRSUTax (salaryGrossIncome rsuGrossValue pensionPercentage : ℚ)
    (has30PercentRuling : Bool) (year : ℤ) (taxConfig : TaxConfig) : RSUTaxInfo :=
  let totalIncome := salaryGrossIncome + rsuGrossValue
  let taxResult :=
    calculateTax totalIncome pensionPercentage has30PercentRuling year taxConfig none
  let marginalTaxRate := taxResult.marginalTaxRate
  let taxOnRSU := rsuGrossValue * marginalTaxRate
  { marginalTaxRate, taxOnRSU, netRSUValue := rsuGrossValue - taxOnRSU }

/-- `RSUGrant` (`src/src/types/financial.ts`). -/
structure RSUGrant where
  id : String
  grantYear : ℤ
  grantType : String
  grantValueEur : ℚ
  sharePriceEur : ℚ
  grantShares : ℚ
  vestingYears : ℤ
  vestingPercentagePerYear : ℚ
deriving DecidableEq

/-- `calculateSharesVestingInYear` (RSU module, lines 282-294). -/
def calculateSharesVestingInYear (grant : RSUGrant) (year : ℤ) : ℚ :=
  let yearsFromGrant := year - grant.grantYear
  if yearsFromGrant < 0 ∨ grant.vestingYears ≤ yearsFromGrant then 0
  else grant.grantShares * grant.vestingPercentagePerYear

/-- `createDefaultRSUGrant` (RSU module, lines 428-442). -/
def createDefaultRSUGrant (grantYear : ℤ) : RSUGrant :=
  { id := "grant-" ++ toString grantYear ++ "-main"
    grantYear
    grantType := "Main"
    grantValueEur := 100000
    sharePriceEur := 100
    grantShares := 100000 / 100
    vestingYears := 4
    vestingPercentagePerYear := 0.25 }

/-- `RSUVestingYear` (`src/src/types/financial.ts`). -/
structure RSUVestingYear where
  year : ℤ
  sharesVested : ℚ
  grantPriceAvg : ℚ
  vestingPriceEur : ℚ
  grossRSUValue : ℚ
  stockAppreciation : ℚ
  appreciationPercentage : ℚ
  marginalTaxRate : ℚ
  taxPaid : ℚ
  netRSUValue : ℚ
deriving DecidableEq

/-- All-zero `RSUVestingYear`, the `getD` fallback embedding `arr[i]?.f || 0`. -/
def defaultRSUVestingYear : RSUVestingYear :=
  { year := 0, sharesVested := 0, grantPriceAvg := 0, vestingPriceEur := 0
    grossRSUValue := 0, stockAppreciation := 0, appreciationPercentage := 0
    marginalTaxRate := 0, taxPaid := 0, netRSUValue := 0 }

/-- The per-year grant loop of `calculateRSUVestingByYear` (RSU module,
lines 355-361): accumulates `(totalSharesVested, weightedGrantPrice)` over the
grants, counting a grant only when its `sharesVesting` is positive. -/
def vestingTotals (year : ℤ) : List RSUGrant → ℚ × ℚ
  | [] => (0, 0)
  | grant :: rest =>
      let acc := vestingTotals year rest
      let sharesVesting := calculateSharesVestingInYear grant year
      if 0 < sharesVesting then
        (acc.1 + sharesVesting, acc.2 + sharesVesting * grant.sharePriceEur)
      else acc

/-- One iteration of the year loop of `calculateRSUVestingByYear` (RSU module,
lines 348-420).  The JavaScript truthiness test
`taxResults && taxResults[i] && taxResultsWithoutRSU && taxResultsWithoutRSU[i]`
becomes: both lists present and `i` in bounds for both. -/
def rsuYearEntry (grants : List RSUGrant) (startYear : ℤ)
    (salaryByYear : ℤ → ℚ)
    (sharePriceGrowthRate currentStockPrice pensionPercentage : ℚ)
    (has30PercentRuling : Bool)
    (taxResults taxResultsWithoutRSU : Option (List TaxResult))
    (i : ℕ) : RSUVestingYear :=
  let year := startYear + (i : ℤ)
  let baseSharePrice := currentStockPrice
  let totals := vestingTotals year grants
  let totalSharesVested := totals.1
  let weightedGrantPrice := totals.2
  let avgGrantPrice :=
    if 0 < totalSharesVested then weightedGrantPrice / totalSharesVested
    else baseSharePrice
  let vestingPriceEur := baseSharePrice * (1 + sharePriceGrowthRate) ^ i
  let grossRSUValue := totalSharesVested * vestingPriceEur
  let stockAppreciation := totalSharesVested * (vestingPriceEur - avgGrantPrice)
  let appreciationPercentage :=
    if 0 < avgGrantPrice then (vestingPriceEur - avgGrantPrice) / avgGrantPrice
    else 0
  let salaryGrossIncome := salaryByYear year
  let fallbackInfo :=
    let rsuTax := calculateRSUTax salaryGrossIncome grossRSUValue
      pensionPercentage has30PercentRuling year NETHERLANDS_TAX_CONFIG_2025
    (rsuTax.marginalTaxRate, rsuTax.taxOnRSU, rsuTax.netRSUValue)
  let taxInfo :=
    match taxResults, taxResultsWithoutRSU with
    | some ts, some tw =>
        if i < ts.length ∧ i < tw.length then
          let taxWithRSU := (ts.getD i defaultTaxResult).totalTax
          let taxWithoutRSU := (tw.getD i defaultTaxResult).totalTax
          let taxPaid := taxWithRSU - taxWithoutRSU
          (if 0 < grossRSUValue then taxPaid / grossRSUValue else 0,
            taxPaid, grossRSUValue - taxPaid)
        else fallbackInfo
    | _, _ => fallbackInfo
  { year, sharesVested := totalSharesVested, grantPriceAvg := avgGrantPrice
    vestingPriceEur, grossRSUValue, stockAppreciation, appreciationPercentage
    marginalTaxRate := taxInfo.1, taxPaid := taxInfo.2.1
    netRSUValue := taxInfo.2.2 }

/-- `calculateRSUVestingByYear` (RSU module, lines 331-423). -/
def calculateRSUVestingByYear (grants : List RSUGrant) (startYear : ℤ)
    (projectionYears : ℕ) (salaryByYear : ℤ → ℚ)
    (sharePriceGrowthRate currentStockPrice pensionPercentage : ℚ)
    (has30PercentRuling : Bool)
    (taxResults taxResultsWithoutRSU : Option (List TaxResult)) :
    List RSUVestingYear :=
  (List.range projectionYears).map
    (rsuYearEntry grants startYear salaryByYear sharePriceGrowthRate
      currentStockPrice pensionPercentage has30PercentRuling
      taxResults taxResultsWithoutRSU)

/-- `IncomeSettings` (`src/src/types/financial.ts`). -/
structure IncomeSettings where
  baseSalary : ℚ
  bonusPercentage : ℚ
  holidayAllowancePercentage : ℚ
  pensionPercentage : ℚ
  employerPensionPercentage : ℚ
  healthcareBenefitMonthly : ℚ
  has30PercentRuling : Bool
  salaryGrowthRate : ℚ
deriving DecidableEq

/-- `InvestmentSettings` (`src/src/types/financial.ts`). -/
structure InvestmentSettings where
  startingNetWorth : ℚ
  startingPensionBalance : ℚ
  annualReturnRate : ℚ
  pensionReturnRate : ℚ
  sharePriceGrowthRate : ℚ
  currentStockPrice : ℚ
  bonusInvestmentPercentage : ℚ
  holidayAllowanceInvestmentPercentage : ℚ
deriving DecidableEq

/-- `PlanningSettings` (`src/src/types/financial.ts`). -/
structure PlanningSettings where
  startYear : ℤ
  projectionYears : ℕ
  expenseInflationRate : ℚ
deriving DecidableEq

/-- `ExpenseCategory` (`src/src/types/financial.ts`). -/
structure ExpenseCategory where
  id : String
  name : String
  monthlyAmount : ℚ
deriving DecidableEq

/-- `calculateSalaryByYear` (financial projection module, lines 14-29), embedded
as the lookup-with-default `salaryByYear.get(year) || 0` on the produced map:
the map holds `base * (1+growth)^i` exactly at the years `startYear + i`,
`0 ≤ i < projectionYears`. -/
def calculateSalaryByYear (baseSalary salaryGrowthRate : ℚ) (startYear : ℤ)
    (projectionYears : ℕ) : ℤ → ℚ :=
  fun year =>
    if 0 ≤ year - startYear ∧ year - startYear < (projectionYears : ℤ) then
      baseSalary * (1 + salaryGrowthRate) ^ (year - startYear).toNat
    else 0

/-- `calculateYearlyExpenses` (financial projection module, lines 34-57),
embedded as the lookup-with-default on the produced map. -/
def calculateYearlyExpenses (expenseCategories : List ExpenseCategory)
    (expenseInflationRate : ℚ) (startYear : ℤ) (projectionYears : ℕ) : ℤ → ℚ :=
  let baseMonthlyExpenses :=
    expenseCategories.foldl (fun total category => total + category.monthlyAmount) 0
  let baseAnnualExpenses := baseMonthlyExpenses * 12
  fun year =>
    if 0 ≤ year - startYear ∧ year - startYear < (projectionYears : ℤ) then
      baseAnnualExpenses * (1 + expenseInflationRate) ^ (year - startYear).toNat
    else 0

/-- `YearlyFinancial` (`src/src/types/financial.ts`). -/
structure YearlyFinancial where
  year : ℤ
  grossIncome : ℚ
  rsuGrossValue : ℚ
  totalGrossIncome : ℚ
  netIncome : ℚ
  netRSUValue : ℚ
  totalNetIncome : ℚ
  employerPensionContribution : ℚ
  totalExpenses : ℚ
  netSavings : ℚ
  savingsRate : ℚ
  effectiveTaxRate : ℚ
deriving DecidableEq

/-- All-zero `YearlyFinancial`. -/
def defaultYearlyFinancial : YearlyFinancial :=
  { year := 0, grossIncome := 0, rsuGrossValue := 0, totalGrossIncome := 0
    netIncome := 0, netRSUValue := 0, totalNetIncome := 0
    employerPensionContribution := 0, totalExpenses := 0, netSavings := 0
    savingsRate := 0, effectiveTaxRate := 0 }

/-- One iteration of the year loop of `calculateFinancialProjections`
(financial projection module, lines 78-139).  `arr[i]?.field || 0` accesses are
embedded as `getD` with an all-zero fallback record. -/
def yearlyFinancialEntry (incomeSettings : IncomeSettings)
    (planningSettings : PlanningSettings)
    (expenseCategories : List ExpenseCategory)
    (taxResults : List TaxResult) (rsuVestingByYear : List RSUVestingYear)
    (taxResultsWithoutRSU : Option (List TaxResult)) (i : ℕ) : YearlyFinancial :=
  let year := planningSettings.startYear + (i : ℤ)
  let baseSalaryYear :=
    calculateSalaryByYear incomeSettings.baseSalary incomeSettings.salaryGrowthRate
      planningSettings.startYear planningSettings.projectionYears year
  let grossIncome := baseSalaryYear
    * (1 + incomeSettings.holidayAllowancePercentage + incomeSettings.bonusPercentage)
  let employerPensionContribution :=
    baseSalaryYear * incomeSettings.employerPensionPercentage
  let rsuGrossValue := (rsuVestingByYear.getD i defaultRSUVestingYear).grossRSUValue
  let netRSUValue := (rsuVestingByYear.getD i defaultRSUVestingYear).netRSUValue
  let proportionalSplit :=
    let totalNetIncome := (taxResults.getD i defaultTaxResult).netIncome
    let totalGrossIncome := grossIncome + rsuGrossValue
    let salaryPortion :=
      if 0 < totalGrossIncome then grossIncome / totalGrossIncome else 1
    totalNetIncome * salaryPortion
  let netIncome :=
    match taxResultsWithoutRSU with
    | some tw =>
        if i < tw.length then (tw.getD i defaultTaxResult).netIncome
        else proportionalSplit
    | none => proportionalSplit
  let healthcareBenefit := incomeSettings.healthcareBenefitMonthly * 12
  let netIncomeWithBenefits := netIncome + healthcareBenefit
  let effectiveTaxRate := (taxResults.getD i defaultTaxResult).effectiveTaxRate
  let totalGrossIncomeCalc := grossIncome + rsuGrossValue
  let totalNetIncomeCalc := netIncomeWithBenefits + netRSUValue
  let totalExpenses :=
    calculateYearlyExpenses expenseCategories planningSettings.expenseInflationRate
      planningSettings.startYear planningSettings.projectionYears year
  let netSavings := totalNetIncomeCalc - totalExpenses + employerPensionContribution
  let savingsRate :=
    if 0 < totalNetIncomeCalc then
      netSavings / (totalNetIncomeCalc + employerPensionContribution)
    else 0
  { year, grossIncome, rsuGrossValue, totalGrossIncome := totalGrossIncomeCalc
    netIncome := netIncomeWithBenefits, netRSUValue
    totalNetIncome := totalNetIncomeCalc, employerPensionContribution
    totalExpenses, netSavings, savingsRate, effectiveTaxRate }

/-- `calculateFinancialProjections` (financial projection module, lines 62-142). -/
def calculateFinancialProjections (incomeSettings : IncomeSettings)
    (planningSettings : PlanningSettings)
    (expenseCategories : List ExpenseCategory)
    (taxResults : List TaxResult) (rsuVestingByYear : List RSUVestingYear)
    (taxResultsWithoutRSU : Option (List TaxResult)) : List YearlyFinancial :=
  (List.range planningSettings.projectionYears).map
    (yearlyFinancialEntry incomeSettings planningSettings expenseCategories
      taxResults rsuVestingByYear taxResultsWithoutRSU)

/-- `YearlyInvestment` (`src/src/types/financial.ts`). -/
structure YearlyInvestment where
  year : ℤ
  openingBalance : ℚ
  contributions : ℚ
  monthlySavingsContributions : ℚ
  holidayAllowanceContributions : ℚ
  bonusContributions : ℚ
  cashContributions : ℚ
  rsuContributions : ℚ
  investmentGrowth : ℚ
  closingBalance : ℚ
  cumulativeROI : ℚ
deriving DecidableEq

/-- All-zero `YearlyInvestment`. -/
def defaultYearlyInvestment : YearlyInvestment :=
  { year := 0, openingBalance := 0, contributions := 0
    monthlySavingsContributions := 0, holidayAllowanceContributions := 0
    bonusContributions := 0, cashContributions := 0, rsuContributions := 0
    investmentGrowth := 0, closingBalance := 0, cumulativeROI := 0 }

/-- The year loop of `calculateInvestmentProjections`
(`src/src/utils/investmentCalculations.ts`, lines 18-82), threading the rolling
`currentBalance` and the loop index. -/
def investGo (startingNetWorth annualReturnRate : ℚ)
    (incomeSettings : IncomeSettings) (investmentSettings : InvestmentSettings) :
    ℕ → ℚ → List YearlyFinancial → List YearlyInvestment
  | _, _, [] => []
  | i, currentBalance, financial :: rest =>
      let openingBalance := currentBalance
      let baseSalary :=
        incomeSettings.baseSalary * (1 + incomeSettings.salaryGrowthRate) ^ i
      let bonusGross := baseSalary * incomeSettings.bonusPercentage
      let holidayAllowanceGross :=
        baseSalary * incomeSettings.holidayAllowancePercentage
      let bonusNet := bonusGross * (1 - financial.effectiveTaxRate)
      let holidayAllowanceNet :=
        holidayAllowanceGross * (1 - financial.effectiveTaxRate)
      let bonusContributions :=
        bonusNet * investmentSettings.bonusInvestmentPercentage
      let holidayAllowanceContributions :=
        holidayAllowanceNet * investmentSettings.holidayAllowanceInvestmentPercentage
      let netSalaryOnly := financial.totalNetIncome - financial.netRSUValue
        - bonusNet - holidayAllowanceNet
      let monthlySavings := netSalaryOnly - financial.totalExpenses
      let monthlySavingsContributions := max 0 monthlySavings
      let rsuContributions := financial.netRSUValue
      let cashContributions := monthlySavingsContributions
        + holidayAllowanceContributions + bonusContributions
      let contributions := monthlySavingsContributions
        + holidayAllowanceContributions + bonusContributions + rsuContributions
      let balanceForGrowth := openingBalance + contributions / 2
      let investmentGrowth := balanceForGrowth * annualReturnRate
      let closingBalance := openingBalance + contributions + investmentGrowth
      let cumulativeROI :=
        if 0 < startingNetWorth then
          (closingBalance - startingNetWorth) / startingNetWorth
        else 0
      { year := financial.year, openingBalance, contributions
        monthlySavingsContributions, holidayAllowanceContributions
        bonusContributions, cashContributions, rsuContributions
        investmentGrowth, closingBalance, cumulativeROI }
        :: investGo startingNetWorth annualReturnRate incomeSettings
            investmentSettings (i + 1) closingBalance rest

/-- `calculateInvestmentProjections` (`src/src/utils/investmentCalculations.ts`,
lines 8-85). -/
def calculateInvestmentProjections (startingNetWorth annualReturnRate : ℚ)
    (yearlyFinancials : List YearlyFinancial) (incomeSettings : IncomeSettings)
    (investmentSettings : InvestmentSettings) : List YearlyInvestment :=
  investGo startingNetWorth annualReturnRate incomeSettings investmentSettings
    0 startingNetWorth yearlyFinancials

/-- `YearlyPension` (`src/src/types/financial.ts`). -/
structure YearlyPension where
  year : ℤ
  openingBalance : ℚ
  employeeContributions : ℚ
  employerContributions : ℚ
  pensionGrowth : ℚ
  closingBalance : ℚ
deriving DecidableEq

/-- All-zero `YearlyPension`. -/
def defaultYearlyPension : YearlyPension :=
  { year := 0, openingBalance := 0, employeeContributions := 0
    employerContributions := 0, pensionGrowth := 0, closingBalance := 0 }

/-- The year loop of `calculatePensionProjections` (pension module, lines
17-52), threading the rolling `currentBalance` and the loop index. -/
def pensionGo (pensionReturnRate : ℚ) (taxResults : List TaxResult) :
    ℕ → ℚ → List YearlyFinancial → List YearlyPension
  | _, _, [] => []
  | i, currentBalance, financial :: rest =>
      let taxResult := taxResults.getD i defaultTaxResult
      let openingBalance := currentBalance
      let employeeContributions := taxResult.pensionContributions
      let employerContributions := financial.employerPensionContribution
      let totalContributions := employeeContributions + employerContributions
      let balanceForGrowth := openingBalance + totalContributions / 2
      let pensionGrowth := balanceForGrowth * pensionReturnRate
      let closingBalance := openingBalance + totalContributions + pensionGrowth
      { year := financial.year, openingBalance, employeeContributions
        employerContributions, pensionGrowth, closingBalance }
        :: pensionGo pensionReturnRate taxResults (i + 1) closingBalance rest

/-- `calculatePensionProjections` (pension module, lines 8-55). -/
def calculatePensionProjections (startingPensionBalance pensionReturnRate : ℚ)
    (yearlyFinancials : List YearlyFinancial) (taxResults : List TaxResult) :
    List YearlyPension :=
  pensionGo pensionReturnRate taxResults 0 startingPensionBalance yearlyFinancials

/-- `calculateCAGR` (`src/src/utils/investmentCalculations.ts`, lines 90-98).
`Math.pow` with a fractional exponent is not rational-valued, so the power
operation is abstracted as an explicit function argument `powf`; the guard
logic is the code's own. -/
def calculateCAGR (powf : ℚ → ℚ → ℚ) (startingValue endingValue years : ℚ) : ℚ :=
  if startingValue ≤ 0 ∨ years ≤ 0 then 0
  else powf (endingValue / startingValue) (1 / years) - 1

/-- Return value of `projectSingleYear`. -/
structure SingleYearProjection where
  growth : ℚ
  closingBalance : ℚ
deriving DecidableEq

/-- `projectSingleYear` (`src/src/utils/investmentCalculations.ts`,
lines 135-151). -/
def projectSingleYear (openingBalance contribution returnRate : ℚ) :
    SingleYearProjection :=
  let balanceForGrowth := openingBalance + contribution / 2
  let growth := balanceForGrowth * returnRate
  let closingBalance := openingBalance + contribution + growth
  { growth, closingBalance }

/-- The taxable income computed inside `calculateTax` when the pension
override is supplied: `(grossIncome - override) * 0.70` under the 30% ruling,
`grossIncome - override` otherwise. -/
def taxableOf (has30PercentRuling : Bool) (grossIncome pensionContributions : ℚ) : ℚ :=
  if has30PercentRuling then (grossIncome - pensionContributions) * 0.70
  else grossIncome - pensionContributions

/-- `chainFromF openingOf closingOf b l`: the chain invariant for balance-rolled
year lists — the first entry opens at `b` and every entry opens at the previous
entry's closing balance. -/
def chainFromF {α : Type} (openingOf closingOf : α → ℚ) : ℚ → List α → Prop
  | _, [] => True
  | b, e :: rest => openingOf e = b ∧ chainFromF openingOf closingOf (closingOf e) rest

/-- All-zero `IncomeSettings` test fixture. -/
def zeroIncomeSettings : IncomeSettings :=
  { baseSalary := 0, bonusPercentage := 0, holidayAllowancePercentage := 0
    pensionPercentage := 0, employerPensionPercentage := 0
    healthcareBenefitMonthly := 0, has30PercentRuling := false
    salaryGrowthRate := 0 }

/-- All-zero `InvestmentSettings` test fixture. -/
def zeroInvestmentSettings : InvestmentSettings :=
  { startingNetWorth := 0, startingPensionBalance := 0, annualReturnRate := 0
    pensionReturnRate := 0, sharePriceGrowthRate := 0, currentStockPrice := 0
    bonusInvestmentPercentage := 0, holidayAllowanceInvestmentPercentage := 0 }

/-- A salary-only `TaxResult` input with negative net income, as an aggregator
input probing the `savingsRate` guard. -/
def negativeNetIncomeTaxResult : TaxResult :=
  { defaultTaxResult with netIncome := -100 }

/-- Settings fixture with a positive employer pension contribution. -/
def cxIncomeSettings : IncomeSettings :=
  { zeroIncomeSettings with baseSalary := 100, employerPensionPercentage := 1 / 10 }

/-- One-year planning fixture. -/
def cxPlanningSettings : PlanningSettings :=
  { startYear := 0, projectionYears := 1, expenseInflationRate := 0 }

/-- `getD 0` of a nonempty list is its head, hence a member. -/
lemma getD_zero_mem {α : Type} (l : List α) (d : α) (h : 0 < l.length) :
    l.getD 0 d ∈ l := by
  cases l with
  | nil => simp at h
  | cons a t => simp

/-- Indexing a mapped range list below its length yields the mapped index. -/
lemma getD_range_map {α : Type} (f : ℕ → α) (d : α) {n i : ℕ} (h : i < n) :
    ((List.range n).map f).getD i d = f i := by
  simp [List.getD_eq_getElem?_getD, List.getElem?_map, List.getElem?_range h]

/-- `investGo` satisfies the chain invariant from its starting balance. -/
lemma investGo_chainFromF (startingNetWorth annualReturnRate : ℚ)
    (incomeSettings : IncomeSettings) (investmentSettings : InvestmentSettings) :
    ∀ (yearlyFinancials : List YearlyFinancial) (i : ℕ) (b : ℚ),
      chainFromF (fun e => e.openingBalance) (fun e => e.closingBalance) b
        (investGo startingNetWorth annualReturnRate incomeSettings
          investmentSettings i b yearlyFinancials) := by
  intro yearlyFinancials
  induction yearlyFinancials with
  | nil => intro i b; trivial
  | cons f rest ih => intro i b; exact ⟨rfl, ih (i + 1) _⟩

/-- `pensionGo` satisfies the chain invariant from its starting balance. -/
lemma pensionGo_chainFromF (pensionReturnRate : ℚ) (taxResults : List TaxResult) :
    ∀ (yearlyFinancials : List YearlyFinancial) (i : ℕ) (b : ℚ),
      chainFromF (fun e => e.openingBalance) (fun e => e.closingBalance) b
        (pensionGo pensionReturnRate taxResults i b yearlyFinancials) := by
  intro yearlyFinancials
  induction yearlyFinancials with
  | nil => intro i b; trivial
  | cons f rest ih => intro i b; exact ⟨rfl, ih (i + 1) _⟩

/-- The chain invariant gives first-entry opening and adjacent-entry chaining
in terms of `getD`. -/
lemma chainFromF_getD {α : Type} (openingOf closingOf : α → ℚ) (d : α) :
    ∀ (l : List α) (b : ℚ), chainFromF openingOf closingOf b l →
      (0 < l.length → openingOf (l.getD 0 d) = b)
      ∧ ∀ j, j + 1 < l.length →
          openingOf (l.getD (j + 1) d) = closingOf (l.getD j d) := by
  intro l
  induction l with
  | nil =>
      intro b _
      exact ⟨fun h => absurd h (by simp), fun j hj => absurd hj (by simp)⟩
  | cons e rest ih =>
      intro b h
      obtain ⟨h1, h2⟩ := h
      refine ⟨fun _ => h1, ?_⟩
      intro j hj
      cases j with
      | zero =>
          simp only [List.getD_cons_succ, List.getD_cons_zero]
          exact (ih (closingOf e) h2).1 (by simpa using hj)
      | succ k =>
          simp only [List.getD_cons_succ]
          exact (ih (closingOf e) h2).2 k (by simpa using hj)

/-- Claim C6: in the produced investment and pension arrays, every entry after
the first opens at the previous entry's closing balance, and the first entries
open at the starting net worth and starting pension balance respectively. -/
theorem C6_balance_chaining (startingNetWorth annualReturnRate
    startingPensionBalance pensionReturnRate : ℚ)
    (yearlyFinancials : List YearlyFinancial) (incomeSettings : IncomeSettings)
    (investmentSettings : InvestmentSettings) (taxResults : List TaxResult) :
    (∀ j, j + 1 < (calculateInvestmentProjections startingNetWorth annualReturnRate
          yearlyFinancials incomeSettings investmentSettings).length →
        ((calculateInvestmentProjections startingNetWorth annualReturnRate
            yearlyFinancials incomeSettings investmentSettings).getD (j + 1)
            defaultYearlyInvestment).openingBalance
          = ((calculateInvestmentProjections startingNetWorth annualReturnRate
              yearlyFinancials incomeSettings investmentSettings).getD j
              defaultYearlyInvestment).closingBalance)
    ∧ (0 < (calculateInvestmentProjections startingNetWorth annualReturnRate
          yearlyFinancials incomeSettings investmentSettings).length →
        ((calculateInvestmentProjections startingNetWorth annualReturnRate
            yearlyFinancials incomeSettings investmentSettings).getD 0
            defaultYearlyInvestment).openingBalance = startingNetWorth)
    ∧ (∀ j, j + 1 < (calculatePensionProjections startingPensionBalance
          pensionReturnRate yearlyFinancials taxResults).length →
        ((calculatePensionProjections startingPensionBalance pensionReturnRate
            yearlyFinancials taxResults).getD (j + 1)
            defaultYearlyPension).openingBalance
          = ((calculatePensionProjections startingPensionBalance pensionReturnRate
              yearlyFinancials taxResults).getD j
              defaultYearlyPension).closingBalance)
    ∧ (0 < (calculatePensionProjections startingPensionBalance pensionReturnRate
          yearlyFinancials taxResults).length →
        ((calculatePensionProjections startingPensionBalance pensionReturnRate
            yearlyFinancials taxResults).getD 0
            defaultYearlyPension).openingBalance = startingPensionBalance) := by
  have hI := chainFromF_getD (fun e => e.openingBalance) (fun e => e.closingBalance)
    defaultYearlyInvestment
    (calculateInvestmentProjections startingNetWorth annualReturnRate
      yearlyFinancials incomeSettings investmentSettings) startingNetWorth
    (investGo_chainFromF startingNetWorth annualReturnRate incomeSettings
      investmentSettings yearlyFinancials 0 startingNetWorth)
  have hP := chainFromF_getD (fun e => e.openingBalance) (fun e => e.closingBalance)
    defaultYearlyPension
    (calculatePensionProjections startingPensionBalance pensionReturnRate
      yearlyFinancials taxResults) startingPensionBalance
    (pensionGo_chainFromF pensionReturnRate taxResults yearlyFinancials 0
      startingPensionBalance)
  exact ⟨hI.2, hI.1, hP.2, hP.1⟩

/-- Witness for C6 on a concrete two-year run. -/
theorem C6_balance_chaining_witness :
    ((calculateInvestmentProjections 5 (1 / 10)
        [defaultYearlyFinancial, defaultYearlyFinancial] zeroIncomeSettings
        zeroInvestmentSettings).getD 1 defaultYearlyInvestment).openingBalance
      = ((calculateInvestmentProjections 5 (1 / 10)
          [defaultYearlyFinancial, defaultYearlyFinancial] zeroIncomeSettings
          zeroInvestmentSettings).getD 0 defaultYearlyInvestment).closingBalance
    ∧ ((calculatePensionProjections 7 (1 / 10)
        [defaultYearlyFinancial, defaultYearlyFinancial] []).getD 0
        defaultYearlyPension).openingBalance = 7 := by
  have h := C6_balance_chaining 5 (1 / 10) 7 (1 / 10)
    [defaultYearlyFinancial, defaultYearlyFinancial] zeroIncomeSettings
    zeroInvestmentSettings []
  exact ⟨h.1 0 (by decide), h.2.2.2 (by decide)⟩

/-- Every entry produced by `investGo` satisfies the balance-roll equations. -/
lemma investGo_roll (startingNetWorth annualReturnRate : ℚ)
    (incomeSettings : IncomeSettings) (investmentSettings : InvestmentSettings) :
    ∀ (yearlyFinancials : List YearlyFinancial) (i : ℕ) (b : ℚ)
      (e : YearlyInvestment),
      e ∈ investGo startingNetWorth annualReturnRate incomeSettings
        investmentSettings i b yearlyFinancials →
      e.investmentGrowth = (e.openingBalance + e.contributions / 2) * annualReturnRate
      ∧ e.closingBalance = e.openingBalance + e.contributions + e.investmentGrowth := by
  intro yearlyFinancials
  induction yearlyFinancials with
  | nil => intro i b e he; simp [investGo] at he
  | cons f rest ih =>
      intro i b e he
      rw [investGo] at he
      rcases List.mem_cons.mp he with rfl | htail
      · exact ⟨rfl, rfl⟩
      · exact ih (i + 1) _ e htail

/-- Every entry produced by `pensionGo` satisfies the balance-roll equations. -/
lemma pensionGo_roll (pensionReturnRate : ℚ) (taxResults : List TaxResult) :
    ∀ (yearlyFinancials : List YearlyFinancial) (i : ℕ) (b : ℚ) (e : YearlyPension),
      e ∈ pensionGo pensionReturnRate taxResults i b yearlyFinancials →
      e.pensionGrowth = (e.openingBalance
          + (e.employeeContributions + e.employerContributions) / 2) * pensionReturnRate
      ∧ e.closingBalance = e.openingBalance
          + (e.employeeContributions + e.employerContributions) + e.pensionGrowth := by
  intro yearlyFinancials
  induction yearlyFinancials with
  | nil => intro i b e he; simp [pensionGo] at he
  | cons f rest ih =>
      intro i b e he
      rw [pensionGo] at he
      rcases List.mem_cons.mp he with rfl | htail
      · exact ⟨rfl, rfl⟩
      · exact ih (i + 1) _ e htail

/-- Claim C7: every yearly balance roll (investment and pension alike) computes
`growth = (openingBalance + contributions/2) * returnRate` and
`closingBalance = openingBalance + contributions + growth`; `projectSingleYear`
implements the same roll, and at opening 0, contributions 10000, rate 0.10 the
growth is 500 and the closing balance 10500. -/
theorem C7_balance_roll (startingNetWorth annualReturnRate
    startingPensionBalance pensionReturnRate : ℚ)
    (yearlyFinancials : List YearlyFinancial) (incomeSettings : IncomeSettings)
    (investmentSettings : InvestmentSettings) (taxResults : List TaxResult)
    (openingBalance contribution returnRate : ℚ) :
    (∀ e ∈ calculateInvestmentProjections startingNetWorth annualReturnRate
        yearlyFinancials incomeSettings investmentSettings,
      e.investmentGrowth = (e.openingBalance + e.contributions / 2) * annualReturnRate
      ∧ e.closingBalance = e.openingBalance + e.contributions + e.investmentGrowth)
    ∧ (∀ e ∈ calculatePensionProjections startingPensionBalance pensionReturnRate
        yearlyFinancials taxResults,
      e.pensionGrowth = (e.openingBalance
          + (e.employeeContributions + e.employerContributions) / 2) * pensionReturnRate
      ∧ e.closingBalance = e.openingBalance
          + (e.employeeContributions + e.employerContributions) + e.pensionGrowth)
    ∧ ((projectSingleYear openingBalance contribution returnRate).growth
        = (openingBalance + contribution / 2) * returnRate
      ∧ (projectSingleYear openingBalance contribution returnRate).closingBalance
        = openingBalance + contribution
          + (projectSingleYear openingBalance contribution returnRate).growth)
    ∧ ((projectSingleYear 0 10000 0.1).growth = 500
      ∧ (projectSingleYear 0 10000 0.1).closingBalance = 10500) := by
  refine ⟨?_, ?_, ⟨rfl, rfl⟩, by norm_num [projectSingleYear]⟩
  · intro e he
    exact investGo_roll startingNetWorth annualReturnRate incomeSettings
      investmentSettings yearlyFinancials 0 startingNetWorth e he
  · intro e he
    exact pensionGo_roll pensionReturnRate taxResults yearlyFinancials 0
      startingPensionBalance e he

/-- Witness for C7 on a concrete one-year run. -/
theorem C7_balance_roll_witness :
    ((calculateInvestmentProjections 5 (1 / 10) [defaultYearlyFinancial]
        zeroIncomeSettings zeroInvestmentSettings).getD 0
        defaultYearlyInvestment).investmentGrowth
      = (((calculateInvestmentProjections 5 (1 / 10) [defaultYearlyFinancial]
          zeroIncomeSettings zeroInvestmentSettings).getD 0
          defaultYearlyInvestment).openingBalance
        + ((calculateInvestmentProjections 5 (1 / 10) [defaultYearlyFinancial]
            zeroIncomeSettings zeroInvestmentSettings).getD 0
            defaultYearlyInvestment).contributions / 2) * (1 / 10) :=
  ((C7_balance_roll 5 (1 / 10) 0 0 [defaultYearlyFinancial] zeroIncomeSettings
      zeroInvestmentSettings [] 0 0 0).1
    ((calculateInvestmentProjections 5 (1 / 10) [defaultYearlyFinancial]
        zeroIncomeSettings zeroInvestmentSettings).getD 0 defaultYearlyInvestment)
    (getD_zero_mem _ _ (by simp [calculateInvestmentProjections, investGo]))).1

/-- Claim C3: `calculateTax` returns
`totalTax = max(pensionContributions, incomeTax + socialContributions -
generalTaxCredit - labourTaxCredit) + pensionContributions`,
`netIncome = grossIncome - totalTax`, and (for nonzero gross income)
`effectiveTaxRate = totalTax / grossIncome`. -/
theorem C3_calculateTax_totals (grossIncome pensionPercentage : ℚ)
    (has30PercentRuling : Bool) (year : ℤ) (taxConfig : TaxConfig)
    (pensionContributionsOverride : Option ℚ) :
    (calculateTax grossIncome pensionPercentage has30PercentRuling year taxConfig
        pensionContributionsOverride).totalTax
      = max (calculateTax grossIncome pensionPercentage has30PercentRuling year
            taxConfig pensionContributionsOverride).pensionContributions
          ((calculateTax grossIncome pensionPercentage has30PercentRuling year
              taxConfig pensionContributionsOverride).incomeTax
            + (calculateTax grossIncome pensionPercentage has30PercentRuling year
                taxConfig pensionContributionsOverride).socialContributions
            - (calculateTax grossIncome pensionPercentage has30PercentRuling year
                taxConfig pensionContributionsOverride).generalTaxCredit
            - (calculateTax grossIncome pensionPercentage has30PercentRuling year
                taxConfig pensionContributionsOverride).labourTaxCredit)
        + (calculateTax grossIncome pensionPercentage has30PercentRuling year
            taxConfig pensionContributionsOverride).pensionContributions
    ∧ (calculateTax grossIncome pensionPercentage has30PercentRuling year taxConfig
        pensionContributionsOverride).netIncome
      = (calculateTax grossIncome pensionPercentage has30PercentRuling year
          taxConfig pensionContributionsOverride).grossIncome
        - (calculateTax grossIncome pensionPercentage has30PercentRuling year
            taxConfig pensionContributionsOverride).totalTax
    ∧ (grossIncome ≠ 0 →
        (calculateTax grossIncome pensionPercentage has30PercentRuling year
            taxConfig pensionContributionsOverride).effectiveTaxRate
          = (calculateTax grossIncome pensionPercentage has30PercentRuling year
              taxConfig pensionContributionsOverride).totalTax
            / (calculateTax grossIncome pensionPercentage has30PercentRuling year
                taxConfig pensionContributionsOverride).grossIncome) :=
  ⟨rfl, rfl, fun _ => rfl⟩

/-- Witness for C3 at gross income 50000. -/
theorem C3_calculateTax_totals_witness :
    (50000 : ℚ) ≠ 0
    ∧ (calculateTax 50000 0.0338 false 2025 NETHERLANDS_TAX_CONFIG_2025
        none).effectiveTaxRate
      = (calculateTax 50000 0.0338 false 2025 NETHERLANDS_TAX_CONFIG_2025
          none).totalTax
        / (calculateTax 50000 0.0338 false 2025 NETHERLANDS_TAX_CONFIG_2025
            none).grossIncome :=
  ⟨by norm_num,
    (C3_calculateTax_totals 50000 0.0338 false 2025 NETHERLANDS_TAX_CONFIG_2025
        none).2.2 (by norm_num)⟩

/-- Claim C9: `calculateCAGR` returns exactly 0 whenever the starting value or
the year count is nonpositive, and otherwise applies the power function to
`(endingValue/startingValue)` and `1/years` and subtracts 1. -/
theorem C9_cagr_guard (powf : ℚ → ℚ → ℚ) (startingValue endingValue years : ℚ) :
    (startingValue ≤ 0 ∨ years ≤ 0 →
      calculateCAGR powf startingValue endingValue years = 0)
    ∧ (0 < startingValue → 0 < years →
      calculateCAGR powf startingValue endingValue years
        = powf (endingValue / startingValue) (1 / years) - 1) := by
  constructor
  · intro h
    rw [calculateCAGR, if_pos h]
  · intro h1 h2
    rw [calculateCAGR, if_neg (by push_neg; exact ⟨h1, h2⟩)]

/-- Witness for C9: the zero guard at starting value 0 and the generic branch
at a positive input. -/
theorem C9_cagr_guard_witness :
    calculateCAGR (fun a _ => a) 0 7 3 = 0
    ∧ calculateCAGR (fun a _ => a) 4 8 2 = (8 : ℚ) / 4 - 1 :=
  ⟨(C9_cagr_guard (fun a _ => a) 0 7 3).1 (Or.inl le_rfl),
    (C9_cagr_guard (fun a _ => a) 4 8 2).2 (by norm_num) (by norm_num)⟩

/-- In exact mode (both tax series supplied, index in bounds) the year entry's
tax fields are the totals difference. -/
lemma rsuYearEntry_exact (grants : List RSUGrant) (startYear : ℤ)
    (salaryByYear : ℤ → ℚ)
    (sharePriceGrowthRate currentStockPrice pensionPercentage : ℚ)
    (has30PercentRuling : Bool) (ts tw : List TaxResult) (i : ℕ)
    (hts : i < ts.length) (htw : i < tw.length) :
    (rsuYearEntry grants startYear salaryByYear sharePriceGrowthRate
        currentStockPrice pensionPercentage has30PercentRuling
        (some ts) (some tw) i).taxPaid
      = (ts.getD i defaultTaxResult).totalTax - (tw.getD i defaultTaxResult).totalTax
    ∧ (rsuYearEntry grants startYear salaryByYear sharePriceGrowthRate
        currentStockPrice pensionPercentage has30PercentRuling
        (some ts) (some tw) i).netRSUValue
      = (rsuYearEntry grants startYear salaryByYear sharePriceGrowthRate
          currentStockPrice pensionPercentage has30PercentRuling
          (some ts) (some tw) i).grossRSUValue
        - (rsuYearEntry grants startYear salaryByYear sharePriceGrowthRate
            currentStockPrice pensionPercentage has30PercentRuling
            (some ts) (some tw) i).taxPaid := by
  simp only [rsuYearEntry, hts, htw, and_self, if_true]

/-- Claim C2: in exact tax mode (both per-year tax series supplied and present
at index `i`), the RSU calculator sets the year's `taxPaid` to
`taxResults[i].totalTax - taxResultsWithoutRSU[i].totalTax` and the year's
`netRSUValue` to `grossRSUValue - taxPaid`. -/
theorem C2_exact_tax_mode (grants : List RSUGrant) (startYear : ℤ)
    (projectionYears : ℕ) (salaryByYear : ℤ → ℚ)
    (sharePriceGrowthRate currentStockPrice pensionPercentage : ℚ)
    (has30PercentRuling : Bool) (ts tw : List TaxResult) (i : ℕ)
    (hi : i < projectionYears) (hts : i < ts.length) (htw : i < tw.length) :
    ((calculateRSUVestingByYear grants startYear projectionYears salaryByYear
        sharePriceGrowthRate currentStockPrice pensionPercentage
        has30PercentRuling (some ts) (some tw)).getD i
        defaultRSUVestingYear).taxPaid
      = (ts.getD i defaultTaxResult).totalTax - (tw.getD i defaultTaxResult).totalTax
    ∧ ((calculateRSUVestingByYear grants startYear projectionYears salaryByYear
        sharePriceGrowthRate currentStockPrice pensionPercentage
        has30PercentRuling (some ts) (some tw)).getD i
        defaultRSUVestingYear).netRSUValue
      = ((calculateRSUVestingByYear grants startYear projectionYears salaryByYear
          sharePriceGrowthRate currentStockPrice pensionPercentage
          has30PercentRuling (some ts) (some tw)).getD i
          defaultRSUVestingYear).grossRSUValue
        - ((calculateRSUVestingByYear grants startYear projectionYears salaryByYear
            sharePriceGrowthRate currentStockPrice pensionPercentage
            has30PercentRuling (some ts) (some tw)).getD i
            defaultRSUVestingYear).taxPaid := by
  rw [calculateRSUVestingByYear, getD_range_map _ _ hi]
  exact rsuYearEntry_exact grants startYear salaryByYear sharePriceGrowthRate
    currentStockPrice pensionPercentage has30PercentRuling ts tw i hts htw

/-- Witness for C2 on a concrete one-year projection. -/
theorem C2_exact_tax_mode_witness :
    ((calculateRSUVestingByYear [] 0 1 (fun _ => 0) 0 0 0 false
        (some [defaultTaxResult]) (some [defaultTaxResult])).getD 0
        defaultRSUVestingYear).taxPaid
      = ([defaultTaxResult].getD 0 defaultTaxResult).totalTax
        - ([defaultTaxResult].getD 0 defaultTaxResult).totalTax :=
  (C2_exact_tax_mode [] 0 1 (fun _ => 0) 0 0 0 false [defaultTaxResult]
    [defaultTaxResult] 0 (by norm_num) (by norm_num) (by norm_num)).1

/-- If every grant vests zero shares in a year, the accumulated totals are zero. -/
lemma vestingTotals_eq_zero (year : ℤ) (grants : List RSUGrant)
    (hz : ∀ g ∈ grants, calculateSharesVestingInYear g year = 0) :
    vestingTotals year grants = (0, 0) := by
  induction grants with
  | nil => rfl
  | cons g rest ih =>
      have ih2 := ih fun g2 hg2 => hz g2 (List.mem_cons_of_mem _ hg2)
      simp only [vestingTotals, hz g (List.mem_cons_self g rest), ih2]
      norm_num

/-- Claim C5: shares vest linearly at `grantShares * vestingPercentagePerYear`
exactly in the years `y` with `0 ≤ y - grantYear < vestingYears`; the vesting
price for projection index `i` is `currentPrice * (1+growthRate)^i`, anchored
to the plan start year; and the concrete scenario (grant of value 100000 at
price 100, 4-year equal vesting, granted 2024, plan start 2025, 5% growth)
yields 250 shares, vesting price 100 and gross value 25000 in 2025. -/
theorem C5_linear_vesting_and_price :
    (∀ (grant : RSUGrant) (y : ℤ),
      calculateSharesVestingInYear grant y
        = if 0 ≤ y - grant.grantYear ∧ y - grant.grantYear < grant.vestingYears
          then grant.grantShares * grant.vestingPercentagePerYear else 0)
    ∧ (∀ (grants : List RSUGrant) (startYear : ℤ) (projectionYears : ℕ)
        (salaryByYear : ℤ → ℚ)
        (sharePriceGrowthRate currentStockPrice pensionPercentage : ℚ)
        (has30PercentRuling : Bool)
        (taxResults taxResultsWithoutRSU : Option (List TaxResult)) (i : ℕ),
        i < projectionYears →
        ((calculateRSUVestingByYear grants startYear projectionYears salaryByYear
            sharePriceGrowthRate currentStockPrice pensionPercentage
            has30PercentRuling taxResults taxResultsWithoutRSU).getD i
            defaultRSUVestingYear).vestingPriceEur
          = currentStockPrice * (1 + sharePriceGrowthRate) ^ i)
    ∧ (((calculateRSUVestingByYear [createDefaultRSUGrant 2024] 2025 1
          (fun _ => 0) 0.05 100 0 false none none).getD 0
          defaultRSUVestingYear).sharesVested = 250
      ∧ ((calculateRSUVestingByYear [createDefaultRSUGrant 2024] 2025 1
          (fun _ => 0) 0.05 100 0 false none none).getD 0
          defaultRSUVestingYear).vestingPriceEur = 100
      ∧ ((calculateRSUVestingByYear [createDefaultRSUGrant 2024] 2025 1
          (fun _ => 0) 0.05 100 0 false none none).getD 0
          defaultRSUVestingYear).grossRSUValue = 25000) := by
  refine ⟨?_, ?_, ?_⟩
  · intro grant y
    simp only [calculateSharesVestingInYear]
    split_ifs with h1 h2 h3
    · exfalso; rcases h1 with h | h <;> omega
    · rfl
    · rfl
    · exfalso; push_neg at h1 h3; omega
  · intro grants startYear projectionYears salaryByYear sharePriceGrowthRate
      currentStockPrice pensionPercentage has30PercentRuling taxResults
      taxResultsWithoutRSU i hi
    rw [calculateRSUVestingByYear, getD_range_map _ _ hi]
    rfl
  · refine ⟨?_, ?_, ?_⟩ <;>
      · rw [calculateRSUVestingByYear,
          getD_range_map _ _ (show 0 < 1 by norm_num)]
        norm_num [rsuYearEntry, vestingTotals, calculateSharesVestingInYear,
          createDefaultRSUGrant]

/-- Witness for C5's bounded-index price formula at a concrete index. -/
theorem C5_linear_vesting_and_price_witness :
    ((calculateRSUVestingByYear [] 2025 3 (fun _ => 0) 0 7 0 false none
        none).getD 2 defaultRSUVestingYear).vestingPriceEur
      = 7 * (1 + 0) ^ 2 :=
  C5_linear_vesting_and_price.2.1 [] 2025 3 (fun _ => 0) 0 7 0 false none none 2
    (by norm_num)

/-- Claim C10: in a projection year where zero shares vest across all grants,
the RSU calculator reports zero shares and zero gross value but sets
`grantPriceAvg` to the `currentStockPrice` argument, and reports
`appreciationPercentage` relative to that fallback price. -/
theorem C10_zero_vesting_fallback_price (grants : List RSUGrant) (startYear : ℤ)
    (projectionYears : ℕ) (salaryByYear : ℤ → ℚ)
    (sharePriceGrowthRate currentStockPrice pensionPercentage : ℚ)
    (has30PercentRuling : Bool)
    (taxResults taxResultsWithoutRSU : Option (List TaxResult)) (i : ℕ)
    (hi : i < projectionYears)
    (hz : ∀ g ∈ grants,
      calculateSharesVestingInYear g (startYear + (i : ℤ)) = 0) :
    ((calculateRSUVestingByYear grants startYear projectionYears salaryByYear
        sharePriceGrowthRate currentStockPrice pensionPercentage
        has30PercentRuling taxResults taxResultsWithoutRSU).getD i
        defaultRSUVestingYear).sharesVested = 0
    ∧ ((calculateRSUVestingByYear grants startYear projectionYears salaryByYear
        sharePriceGrowthRate currentStockPrice pensionPercentage
        has30PercentRuling taxResults taxResultsWithoutRSU).getD i
        defaultRSUVestingYear).grossRSUValue = 0
    ∧ ((calculateRSUVestingByYear grants startYear projectionYears salaryByYear
        sharePriceGrowthRate currentStockPrice pensionPercentage
        has30PercentRuling taxResults taxResultsWithoutRSU).getD i
        defaultRSUVestingYear).grantPriceAvg = currentStockPrice
    ∧ ((calculateRSUVestingByYear grants startYear projectionYears salaryByYear
        sharePriceGrowthRate currentStockPrice pensionPercentage
        has30PercentRuling taxResults taxResultsWithoutRSU).getD i
        defaultRSUVestingYear).appreciationPercentage
      = (if 0 < currentStockPrice then
          (currentStockPrice * (1 + sharePriceGrowthRate) ^ i - currentStockPrice)
            / currentStockPrice
        else 0) := by
  rw [calculateRSUVestingByYear, getD_range_map _ _ hi]
  have h0 := vestingTotals_eq_zero (startYear + (i : ℤ)) grants hz
  simp only [rsuYearEntry, h0]
  norm_num

/-- Witness for C10 with no grants. -/
theorem C10_zero_vesting_fallback_price_witness :
    ((calculateRSUVestingByYear [] 2025 1 (fun _ => 0) 0 100 0 false none
        none).getD 0 defaultRSUVestingYear).grantPriceAvg = 100 :=
  (C10_zero_vesting_fallback_price [] 2025 1 (fun _ => 0) 0 100 0 false none
    none 0 (by norm_num) (by simp)).2.2.1

/-- The `netSavings` field of a yearly financial entry. -/
lemma yearlyFinancialEntry_netSavings (incomeSettings : IncomeSettings)
    (planningSettings : PlanningSettings)
    (expenseCategories : List ExpenseCategory) (taxResults : List TaxResult)
    (rsuVestingByYear : List RSUVestingYear)
    (taxResultsWithoutRSU : Option (List TaxResult)) (i : ℕ) :
    (yearlyFinancialEntry incomeSettings planningSettings expenseCategories
        taxResults rsuVestingByYear taxResultsWithoutRSU i).netSavings
      = (yearlyFinancialEntry incomeSettings planningSettings expenseCategories
          taxResults rsuVestingByYear taxResultsWithoutRSU i).totalNetIncome
        - (yearlyFinancialEntry incomeSettings planningSettings expenseCategories
            taxResults rsuVestingByYear taxResultsWithoutRSU i).totalExpenses
        + (yearlyFinancialEntry incomeSettings planningSettings expenseCategories
            taxResults rsuVestingByYear taxResultsWithoutRSU i).employerPensionContribution :=
  rfl

/-- The `totalNetIncome` field is net (salary) income plus net RSU value. -/
lemma yearlyFinancialEntry_totalNetIncome (incomeSettings : IncomeSettings)
    (planningSettings : PlanningSettings)
    (expenseCategories : List ExpenseCategory) (taxResults : List TaxResult)
    (rsuVestingByYear : List RSUVestingYear)
    (taxResultsWithoutRSU : Option (List TaxResult)) (i : ℕ) :
    (yearlyFinancialEntry incomeSettings planningSettings expenseCategories
        taxResults rsuVestingByYear taxResultsWithoutRSU i).totalNetIncome
      = (yearlyFinancialEntry incomeSettings planningSettings expenseCategories
          taxResults rsuVestingByYear taxResultsWithoutRSU i).netIncome
        + (yearlyFinancialEntry incomeSettings planningSettings expenseCategories
            taxResults rsuVestingByYear taxResultsWithoutRSU i).netRSUValue :=
  rfl

/-- The `savingsRate` field, with the source's positivity guard. -/
lemma yearlyFinancialEntry_savingsRate (incomeSettings : IncomeSettings)
    (planningSettings : PlanningSettings)
    (expenseCategories : List ExpenseCategory) (taxResults : List TaxResult)
    (rsuVestingByYear : List RSUVestingYear)
    (taxResultsWithoutRSU : Option (List TaxResult)) (i : ℕ) :
    (yearlyFinancialEntry incomeSettings planningSettings expenseCategories
        taxResults rsuVestingByYear taxResultsWithoutRSU i).savingsRate
      = if 0 < (yearlyFinancialEntry incomeSettings planningSettings
            expenseCategories taxResults rsuVestingByYear taxResultsWithoutRSU
            i).totalNetIncome then
          (yearlyFinancialEntry incomeSettings planningSettings expenseCategories
              taxResults rsuVestingByYear taxResultsWithoutRSU i).netSavings
            / ((yearlyFinancialEntry incomeSettings planningSettings
                expenseCategories taxResults rsuVestingByYear taxResultsWithoutRSU
                i).totalNetIncome
              + (yearlyFinancialEntry incomeSettings planningSettings
                  expenseCategories taxResults rsuVestingByYear
                  taxResultsWithoutRSU i).employerPensionContribution)
        else 0 :=
  rfl

/-- Claim C8 (corrected): the aggregator computes
`netSavings = totalNetIncome - totalExpenses + employerPensionContribution`
and `totalNetIncome = netIncome + netRSUValue` (net salary with healthcare
benefit plus net RSU); `savingsRate` is
`netSavings / (totalNetIncome + employerPensionContribution)` only when
`totalNetIncome > 0`, and 0 otherwise. -/
theorem C8_savings_aggregation_amended (incomeSettings : IncomeSettings)
    (planningSettings : PlanningSettings)
    (expenseCategories : List ExpenseCategory) (taxResults : List TaxResult)
    (rsuVestingByYear : List RSUVestingYear)
    (taxResultsWithoutRSU : Option (List TaxResult)) :
    ∀ e ∈ calculateFinancialProjections incomeSettings planningSettings
        expenseCategories taxResults rsuVestingByYear taxResultsWithoutRSU,
      e.netSavings = e.totalNetIncome - e.totalExpenses + e.employerPensionContribution
      ∧ e.totalNetIncome = e.netIncome + e.netRSUValue
      ∧ (0 < e.totalNetIncome →
          e.savingsRate = e.netSavings / (e.totalNetIncome + e.employerPensionContribution))
      ∧ (e.totalNetIncome ≤ 0 → e.savingsRate = 0) := by
  intro e he
  simp only [calculateFinancialProjections, List.mem_map] at he
  obtain ⟨i, hi, rfl⟩ := he
  have hsr := yearlyFinancialEntry_savingsRate incomeSettings planningSettings
    expenseCategories taxResults rsuVestingByYear taxResultsWithoutRSU i
  refine ⟨yearlyFinancialEntry_netSavings _ _ _ _ _ _ i,
    yearlyFinancialEntry_totalNetIncome _ _ _ _ _ _ i, ?_, ?_⟩
  · intro h
    rw [hsr, if_pos h]
  · intro h
    rw [hsr, if_neg (not_lt.mpr h)]

/-- Counterexample to C8 as stated: with a negative salary-only net income and
a positive employer pension contribution the produced `savingsRate` is 0, not
`netSavings / (totalNetIncome + employerPensionContribution)`. -/
theorem C8_counterexample :
    ((calculateFinancialProjections cxIncomeSettings cxPlanningSettings []
        [defaultTaxResult] [] (some [negativeNetIncomeTaxResult])).getD 0
        defaultYearlyFinancial).savingsRate
      ≠ ((calculateFinancialProjections cxIncomeSettings cxPlanningSettings []
          [defaultTaxResult] [] (some [negativeNetIncomeTaxResult])).getD 0
          defaultYearlyFinancial).netSavings
        / (((calculateFinancialProjections cxIncomeSettings cxPlanningSettings []
            [defaultTaxResult] [] (some [negativeNetIncomeTaxResult])).getD 0
            defaultYearlyFinancial).totalNetIncome
          + ((calculateFinancialProjections cxIncomeSettings cxPlanningSettings []
              [defaultTaxResult] [] (some [negativeNetIncomeTaxResult])).getD 0
              defaultYearlyFinancial).employerPensionContribution) := by
  rw [calculateFinancialProjections,
    getD_range_map _ _ (show 0 < cxPlanningSettings.projectionYears by
      norm_num [cxPlanningSettings])]
  norm_num [yearlyFinancialEntry, calculateSalaryByYear, calculateYearlyExpenses,
    cxIncomeSettings, cxPlanningSettings, zeroIncomeSettings,
    negativeNetIncomeTaxResult, defaultTaxResult, defaultRSUVestingYear]

/-- Witness for C8's amended statement on a concrete projection. -/
theorem C8_savings_aggregation_amended_witness :
    ((calculateFinancialProjections cxIncomeSettings cxPlanningSettings []
        [defaultTaxResult] [] (some [negativeNetIncomeTaxResult])).getD 0
        defaultYearlyFinancial).netSavings
      = ((calculateFinancialProjections cxIncomeSettings cxPlanningSettings []
          [defaultTaxResult] [] (some [negativeNetIncomeTaxResult])).getD 0
          defaultYearlyFinancial).totalNetIncome
        - ((calculateFinancialProjections cxIncomeSettings cxPlanningSettings []
            [defaultTaxResult] [] (some [negativeNetIncomeTaxResult])).getD 0
            defaultYearlyFinancial).totalExpenses
        + ((calculateFinancialProjections cxIncomeSettings cxPlanningSettings []
            [defaultTaxResult] [] (some [negativeNetIncomeTaxResult])).getD 0
            defaultYearlyFinancial).employerPensionContribution :=
  ((C8_savings_aggregation_amended cxIncomeSettings cxPlanningSettings []
      [defaultTaxResult] [] (some [negativeNetIncomeTaxResult]))
    ((calculateFinancialProjections cxIncomeSettings cxPlanningSettings []
        [defaultTaxResult] [] (some [negativeNetIncomeTaxResult])).getD 0
        defaultYearlyFinancial)
    (getD_zero_mem _ _ (by simp [calculateFinancialProjections, cxPlanningSettings]))).1

/-- The labour tax credit is nonnegative on nonnegative gross income. -/
lemma labourCredit_nonneg (g : ℚ) (hg : 0 ≤ g) : 0 ≤ calculateLabourTaxCredit g := by
  unfold calculateLabourTaxCredit LABOUR_TAX_CREDIT_MAX_2025
    LABOUR_TAX_CREDIT_THRESHOLD_LOW LABOUR_TAX_CREDIT_THRESHOLD_MID
    LABOUR_TAX_CREDIT_THRESHOLD_HIGH LABOUR_TAX_CREDIT_PHASEOUT_END
  simp only [max_def]
  split_ifs <;> linarith

/-- The labour tax credit never exceeds `3887 + 0.0261 * (36650 - 22357)`,
its value at gross income 36650. -/
lemma labourCredit_le_max (g : ℚ) :
    calculateLabourTaxCredit g ≤ 4260 + 473 / 10000 := by
  unfold calculateLabourTaxCredit LABOUR_TAX_CREDIT_MAX_2025
    LABOUR_TAX_CREDIT_THRESHOLD_LOW LABOUR_TAX_CREDIT_THRESHOLD_MID
    LABOUR_TAX_CREDIT_THRESHOLD_HIGH LABOUR_TAX_CREDIT_PHASEOUT_END
  simp only [max_def]
  split_ifs <;> linarith

/-- Global upper Lipschitz bound for the labour credit: moving gross income up
raises the credit by at most the steepest build-up slope, 28.461%. -/
lemma labourCredit_lip (g h : ℚ) (hg : 0 ≤ g) (hgh : g ≤ h) :
    calculateLabourTaxCredit h - calculateLabourTaxCredit g
      ≤ 0.28461 * (h - g) := by
  unfold calculateLabourTaxCredit LABOUR_TAX_CREDIT_MAX_2025
    LABOUR_TAX_CREDIT_THRESHOLD_LOW LABOUR_TAX_CREDIT_THRESHOLD_MID
    LABOUR_TAX_CREDIT_THRESHOLD_HIGH LABOUR_TAX_CREDIT_PHASEOUT_END
  simp only [max_def]
  split_ifs <;> linarith

/-- Above the 22357 threshold the labour credit rises by at most 2.61% of the
gross-income increase. -/
lemma labourCredit_lip_high (g h : ℚ) (hg : 22357 ≤ g) (hgh : g ≤ h) :
    calculateLabourTaxCredit h - calculateLabourTaxCredit g
      ≤ 0.0261 * (h - g) := by
  unfold calculateLabourTaxCredit LABOUR_TAX_CREDIT_MAX_2025
    LABOUR_TAX_CREDIT_THRESHOLD_LOW LABOUR_TAX_CREDIT_THRESHOLD_MID
    LABOUR_TAX_CREDIT_THRESHOLD_HIGH LABOUR_TAX_CREDIT_PHASEOUT_END
  simp only [max_def]
  split_ifs <;> linarith

/-- The general tax credit is nonnegative. -/
lemma generalCredit_nonneg (t : ℚ) : 0 ≤ calculateGeneralTaxCredit t := by
  unfold calculateGeneralTaxCredit GENERAL_TAX_CREDIT_2025
  simp only [max_def]
  split_ifs <;> linarith

/-- The general tax credit never exceeds 2888. -/
lemma generalCredit_le (t : ℚ) : calculateGeneralTaxCredit t ≤ 2888 := by
  unfold calculateGeneralTaxCredit GENERAL_TAX_CREDIT_2025
  simp only [max_def]
  split_ifs <;> linarith

/-- The general tax credit is nonincreasing in taxable income. -/
lemma generalCredit_anti (t u : ℚ) (htu : t ≤ u) :
    calculateGeneralTaxCredit u ≤ calculateGeneralTaxCredit t := by
  unfold calculateGeneralTaxCredit GENERAL_TAX_CREDIT_2025
  simp only [max_def]
  split_ifs <;> linarith

/-- Closed form of income tax plus social contributions under the 2025
configuration: slope 37.07% up to 69399 of taxable income, 49.5% beyond. -/
lemma incSoc_eval (t : ℚ) (ht : 0 ≤ t) :
    calculateIncomeTax t NETHERLANDS_TAX_CONFIG_2025.incomeTaxBrackets
      + calculateSocialContributions t
          NETHERLANDS_TAX_CONFIG_2025.socialContributions
    = if t ≤ 69399 then 0.3707 * t
      else 0.3707 * 69399 + 0.495 * (t - 69399) := by
  simp only [NETHERLANDS_TAX_CONFIG_2025, calculateIncomeTax,
    calculateSocialContributions, bracketCap, min_def, add_zero]
  split_ifs <;> linarith

/-- Income tax plus social contributions grows at least at slope 37.07%. -/
lemma incSoc_mono (t u : ℚ) (ht : 0 ≤ t) (htu : t ≤ u) :
    0.3707 * (u - t)
      ≤ calculateIncomeTax u NETHERLANDS_TAX_CONFIG_2025.incomeTaxBrackets
        + calculateSocialContributions u
            NETHERLANDS_TAX_CONFIG_2025.socialContributions
        - (calculateIncomeTax t NETHERLANDS_TAX_CONFIG_2025.incomeTaxBrackets
          + calculateSocialContributions t
              NETHERLANDS_TAX_CONFIG_2025.socialContributions) := by
  rw [incSoc_eval t ht, incSoc_eval u (ht.trans htu)]
  split_ifs <;> linarith

/-- Under the 30% ruling, below gross income 22357 the pre-credit tax never
exceeds the credits: the credit-floored term is nonpositive. -/
lemma ruling_core_nonpos (p g : ℚ) (hp : 0 ≤ p) (hpg : p ≤ g)
    (hg : g ≤ 22357) :
    calculateIncomeTax ((g - p) * 0.70)
        NETHERLANDS_TAX_CONFIG_2025.incomeTaxBrackets
      + calculateSocialContributions ((g - p) * 0.70)
          NETHERLANDS_TAX_CONFIG_2025.socialContributions
      - calculateGeneralTaxCredit ((g - p) * 0.70)
      - calculateLabourTaxCredit g ≤ 0 := by
  have ht : (0 : ℚ) ≤ (g - p) * 0.70 := by linarith
  have hsum := incSoc_eval ((g - p) * 0.70) ht
  rw [if_pos (show (g - p) * 0.70 ≤ 69399 by linarith)] at hsum
  have hgen : calculateGeneralTaxCredit ((g - p) * 0.70) = 2888 := by
    unfold calculateGeneralTaxCredit GENERAL_TAX_CREDIT_2025
    rw [if_pos (by linarith)]
  rw [hgen]
  unfold calculateLabourTaxCredit LABOUR_TAX_CREDIT_MAX_2025
    LABOUR_TAX_CREDIT_THRESHOLD_LOW LABOUR_TAX_CREDIT_THRESHOLD_MID
    LABOUR_TAX_CREDIT_THRESHOLD_HIGH LABOUR_TAX_CREDIT_PHASEOUT_END
  simp only [max_def]
  split_ifs <;> linarith

/-- `totalTax` of `calculateTax` with an explicit pension override, in terms
of the credit components. -/
lemma totalTax_override (g pensionPercentage p : ℚ) (ruling : Bool) (y : ℤ)
    (cfg : TaxConfig) :
    (calculateTax g pensionPercentage ruling y cfg (some p)).totalTax
      = max p
          (calculateIncomeTax (taxableOf ruling g p) cfg.incomeTaxBrackets
            + calculateSocialContributions (taxableOf ruling g p)
                cfg.socialContributions
            - calculateGeneralTaxCredit (taxableOf ruling g p)
            - calculateLabourTaxCredit g) + p :=
  rfl

/-- Counterexample to C4 as stated: at gross income 36650 the labour tax
credit exceeds its documented maximum of 4260. -/
theorem C4_counterexample : (4260 : ℚ) < calculateLabourTaxCredit 36650 := by
  norm_num [calculateLabourTaxCredit, LABOUR_TAX_CREDIT_MAX_2025,
    LABOUR_TAX_CREDIT_THRESHOLD_LOW, LABOUR_TAX_CREDIT_THRESHOLD_MID,
    LABOUR_TAX_CREDIT_THRESHOLD_HIGH, LABOUR_TAX_CREDIT_PHASEOUT_END]

/-- Claim C4 (corrected): for nonnegative income inputs both credits are
nonnegative, the general credit never exceeds 2888, and the labour credit
never exceeds 4260.0473 (its true maximum, attained at gross income 36650 —
it exceeds the documented 4260 by at most 0.0473). -/
theorem C4_credit_bounds_amended (t g : ℚ) (ht : 0 ≤ t) (hg : 0 ≤ g) :
    0 ≤ calculateGeneralTaxCredit t
    ∧ calculateGeneralTaxCredit t ≤ 2888
    ∧ 0 ≤ calculateLabourTaxCredit g
    ∧ calculateLabourTaxCredit g ≤ 4260 + 473 / 10000 :=
  ⟨generalCredit_nonneg t, generalCredit_le t, labourCredit_nonneg g hg,
    labourCredit_le_max g⟩

/-- Witness for C4's amended bounds at concrete incomes. -/
theorem C4_credit_bounds_amended_witness :
    0 ≤ calculateGeneralTaxCredit 50000
    ∧ calculateGeneralTaxCredit 50000 ≤ 2888
    ∧ 0 ≤ calculateLabourTaxCredit 36650
    ∧ calculateLabourTaxCredit 36650 ≤ 4260 + 473 / 10000 :=
  C4_credit_bounds_amended 50000 36650 (by norm_num) (by norm_num)

/-- Claim C1: adding RSU income never lowers total tax — for salary gross
income `s ≥ 0`, RSU gross value `r > 0`, pension override `0 ≤ p ≤ s`, either
ruling flag and the default 2025 configuration, the `totalTax` at `s + r` is
at least the `totalTax` at `s`. -/
theorem C1_rsu_income_tax_monotone (s r p pensionPercentage : ℚ)
    (has30PercentRuling : Bool) (year : ℤ)
    (hs : 0 ≤ s) (hr : 0 < r) (hp : 0 ≤ p) (hps : p ≤ s) :
    (calculateTax s pensionPercentage has30PercentRuling year
        NETHERLANDS_TAX_CONFIG_2025 (some p)).totalTax
      ≤ (calculateTax (s + r) pensionPercentage has30PercentRuling year
          NETHERLANDS_TAX_CONFIG_2025 (some p)).totalTax := by
  rw [totalTax_override, totalTax_override]
  have key : ∀ A B : ℚ, A ≤ p ∨ A ≤ B → max p A + p ≤ max p B + p := by
    intro A B hAB
    rcases hAB with h | h
    · rw [max_eq_left h]
      have := le_max_left p B
      linarith
    · have := max_le_max (le_refl p) h
      linarith
  cases has30PercentRuling with
  | false =>
      simp only [taxableOf, Bool.false_eq_true, if_false]
      apply key
      right
      have h1 := incSoc_mono (s - p) (s + r - p) (by linarith) (by linarith)
      have h2 := generalCredit_anti (s - p) (s + r - p) (by linarith)
      have h3 := labourCredit_lip s (s + r) hs (by linarith)
      linarith
  | true =>
      simp only [taxableOf, if_true]
      apply key
      by_cases hA :
        calculateIncomeTax ((s - p) * 0.70)
            NETHERLANDS_TAX_CONFIG_2025.incomeTaxBrackets
          + calculateSocialContributions ((s - p) * 0.70)
              NETHERLANDS_TAX_CONFIG_2025.socialContributions
          - calculateGeneralTaxCredit ((s - p) * 0.70)
          - calculateLabourTaxCredit s ≤ p
      · exact Or.inl hA
      · right
        push_neg at hA
        have hs22 : 22357 < s := by
          by_contra hle
          push_neg at hle
          have := ruling_core_nonpos p s hp hps hle
          linarith
        have h1 := incSoc_mono ((s - p) * 0.70) ((s + r - p) * 0.70)
          (by linarith) (by linarith)
        have h2 := generalCredit_anti ((s - p) * 0.70) ((s + r - p) * 0.70)
          (by linarith)
        have h3 := labourCredit_lip_high s (s + r) (le_of_lt hs22) (by linarith)
        linarith

/-- Witness for C1 at a concrete salary, RSU value and pension override. -/
theorem C1_rsu_income_tax_monotone_witness :
    (calculateTax 50000 0.0338 true 2025 NETHERLANDS_TAX_CONFIG_2025
        (some 1000)).totalTax
      ≤ (calculateTax (50000 + 10000) 0.0338 true 2025
          NETHERLANDS_TAX_CONFIG_2025 (some 1000)).totalTax :=
  C1_rsu_income_tax_monotone 50000 10000 1000 0.0338 true 2025 (by norm_num)
    (by norm_num) (by norm_num) (by norm_num)

end EquityCalc
